import Mathlib

/-!
Verification of the Boundary Resolution & Elevation Raster Acquisition
Pipeline of `scripts/download_data.py`.

The Python source is shallowly embedded: coordinates are exact rationals,
machine integers are `Nat`/`Int`, network and decompression are explicit
environment functions, and every fallible step returns an `Option` or a
record of the observable state (files written, requests issued, flags).
-/

/-! ### Tile identifiers (`tile_code`, download_data.py lines 665-668) -/

/-- Decimal digit characters of a natural number, most significant first. -/
def decDigits (n : Nat) : List Char := Nat.toDigits 10 n

/-- Left-pad a character list with `'0'` up to width `w`
(the semantics of Python's `{:02d}` / `{:03d}` format specifiers). -/
def padZero (w : Nat) (l : List Char) : List Char :=
  List.replicate (w - l.length) '0' ++ l

/-- `tile_code` from the source: hemisphere letter, 2-digit zero-padded
latitude magnitude, hemisphere letter, 3-digit zero-padded longitude
magnitude, for the south-west corner degrees. -/
def tile_code (lat_sw lon_sw : ℤ) : String :=
  String.mk ((if 0 ≤ lat_sw then ['N'] else ['S'])
    ++ padZero 2 (decDigits lat_sw.natAbs)
    ++ (if 0 ≤ lon_sw then ['E'] else ['W'])
    ++ padZero 3 (decDigits lon_sw.natAbs))

/-- Value of a decimal digit character. -/
def digitVal (c : Char) : Option Nat :=
  if '0' ≤ c ∧ c ≤ '9' then some (c.toNat - '0'.toNat) else none

/-- Accumulator pass of Python's `int` over a decimal digit string; a
non-digit character raises, modelled as `none`. -/
def intOfDigitsAux : ℕ → List Char → Option ℕ
  | acc, [] => some acc
  | acc, c :: cs =>
    match digitVal c with
    | none => none
    | some d => intOfDigitsAux (acc * 10 + d) cs

/-- Python's `int(s)` on a slice of digit characters: the empty slice and any
non-digit character raise `ValueError`, modelled as `none`. -/
def intOfDigits (l : List Char) : Option ℕ :=
  match l with
  | [] => none
  | _ :: _ => intOfDigitsAux 0 l

/-- The tile-code decoder of the repository, from `create_geotiff_from_hgt`
(process_data.py lines 172-176):
`lat_sign = -1 if name[0] == 'S' else 1; lat_deg = int(name[1:3]) * lat_sign;`
`lon_sign = -1 if name[3] == 'W' else 1; lon_deg = int(name[4:7]) * lon_sign`.
Any letter other than `'S'` (resp. `'W'`) is read as the northern (eastern)
hemisphere; an out-of-range index or a non-digit slice raises, modelled as
`none`. -/
def hgtNameCorner (name : String) : Option (ℤ × ℤ) :=
  match name.data with
  | [] => none
  | c0 :: rest =>
    let latSign : ℤ := if c0 = 'S' then -1 else 1
    match intOfDigits (rest.take 2) with
    | none => none
    | some latMag =>
      match (rest.drop 2).head? with
      | none => none
      | some c3 =>
        let lonSign : ℤ := if c3 = 'W' then -1 else 1
        match intOfDigits ((rest.drop 3).take 3) with
        | none => none
        | some lonMag => some ((latMag : ℤ) * latSign, (lonMag : ℤ) * lonSign)

set_option maxRecDepth 100000

lemma padZero_two_digits : ∀ n : Nat, n < 100 →
    padZero 2 (decDigits n) = [Nat.digitChar (n / 10), Nat.digitChar (n % 10)] := by
  decide

lemma padZero_three_digits : ∀ n : Nat, n < 1000 →
    padZero 3 (decDigits n) =
      [Nat.digitChar (n / 100), Nat.digitChar (n / 10 % 10), Nat.digitChar (n % 10)] := by
  decide

lemma digitVal_digitChar : ∀ d : Nat, d < 10 → digitVal (Nat.digitChar d) = some d := by
  decide

lemma tile_code_data (lat lon : ℤ) (hla : lat.natAbs < 100) (hlo : lon.natAbs < 1000) :
    (tile_code lat lon).data =
      [(if 0 ≤ lat then 'N' else 'S'),
       Nat.digitChar (lat.natAbs / 10), Nat.digitChar (lat.natAbs % 10),
       (if 0 ≤ lon then 'E' else 'W'),
       Nat.digitChar (lon.natAbs / 100), Nat.digitChar (lon.natAbs / 10 % 10),
       Nat.digitChar (lon.natAbs % 10)] := by
  unfold tile_code
  rw [padZero_two_digits _ hla, padZero_three_digits _ hlo]
  by_cases h1 : 0 ≤ lat <;> by_cases h2 : 0 ≤ lon <;> simp [h1, h2]

lemma intOfDigits_two (a b : ℕ) (ha : a < 10) (hb : b < 10) :
    intOfDigits [Nat.digitChar a, Nat.digitChar b] = some (a * 10 + b) := by
  simp [intOfDigits, intOfDigitsAux, digitVal_digitChar a ha, digitVal_digitChar b hb]

lemma intOfDigits_three (a b c : ℕ) (ha : a < 10) (hb : b < 10) (hc : c < 10) :
    intOfDigits [Nat.digitChar a, Nat.digitChar b, Nat.digitChar c] =
      some ((a * 10 + b) * 10 + c) := by
  simp [intOfDigits, intOfDigitsAux, digitVal_digitChar a ha, digitVal_digitChar b hb,
    digitVal_digitChar c hc]

lemma hgtNameCorner_seven (c0 d1 d2 c3 e1 e2 e3 : Char) :
    hgtNameCorner (String.mk [c0, d1, d2, c3, e1, e2, e3]) =
      match intOfDigits [d1, d2] with
      | none => none
      | some latMag =>
        match intOfDigits [e1, e2, e3] with
        | none => none
        | some lonMag =>
          some ((latMag : ℤ) * (if c0 = 'S' then -1 else 1),
                (lonMag : ℤ) * (if c3 = 'W' then -1 else 1)) := rfl

lemma hgtNameCorner_tile_code (lat lon : ℤ) (hlat : -90 ≤ lat) (hlat2 : lat ≤ 89)
    (hlon : -180 ≤ lon) (hlon2 : lon ≤ 179) :
    hgtNameCorner (tile_code lat lon) = some (lat, lon) := by
  have hla : lat.natAbs < 100 := by omega
  have hlo : lon.natAbs < 1000 := by omega
  have hdata : tile_code lat lon =
      String.mk [(if 0 ≤ lat then 'N' else 'S'),
        Nat.digitChar (lat.natAbs / 10), Nat.digitChar (lat.natAbs % 10),
        (if 0 ≤ lon then 'E' else 'W'),
        Nat.digitChar (lon.natAbs / 100), Nat.digitChar (lon.natAbs / 10 % 10),
        Nat.digitChar (lon.natAbs % 10)] := by
    have := tile_code_data lat lon hla hlo
    cases htc : tile_code lat lon with
    | mk data => rw [htc] at this; simp at this; rw [this]
  rw [hdata, hgtNameCorner_seven]
  rw [intOfDigits_two _ _ (by omega) (by omega),
      intOfDigits_three _ _ _ (by omega) (by omega) (by omega)]
  dsimp only
  have hNS : ('N' : Char) ≠ 'S' := by decide
  have hEW : ('E' : Char) ≠ 'W' := by decide
  by_cases h1 : 0 ≤ lat <;> by_cases h2 : 0 ≤ lon <;>
    simp only [h1, h2, hNS, hEW, ne_eq, if_true, if_false, eq_self_iff_true,
      Option.some.injEq, Prod.mk.injEq] <;>
    exact ⟨by omega, by omega⟩

/-- C4: for every integer degree pair with −90 ≤ lat ≤ 89 and −180 ≤ lon ≤ 179,
`tile_code` produces a 7-character token, the repository's own decoder
(`create_geotiff_from_hgt`, process_data.py 172-176) reads the token's
hemisphere letters and zero-padded magnitudes back to exactly the original
pair, and the encoding is injective on that range. -/
theorem C4_tile_code_roundtrip (lat lon lat' lon' : ℤ)
    (hlat : -90 ≤ lat) (hlat2 : lat ≤ 89) (hlon : -180 ≤ lon) (hlon2 : lon ≤ 179)
    (hlat' : -90 ≤ lat') (hlat2' : lat' ≤ 89) (hlon' : -180 ≤ lon') (hlon2' : lon' ≤ 179) :
    (tile_code lat lon).length = 7 ∧
    hgtNameCorner (tile_code lat lon) = some (lat, lon) ∧
    (tile_code lat' lon' = tile_code lat lon → lat' = lat ∧ lon' = lon) := by
  refine ⟨?_, hgtNameCorner_tile_code lat lon hlat hlat2 hlon hlon2, ?_⟩
  · have hla : lat.natAbs < 100 := by omega
    have hlo : lon.natAbs < 1000 := by omega
    show (tile_code lat lon).data.length = 7
    rw [tile_code_data lat lon hla hlo]
    rfl
  · intro heq
    have hd := hgtNameCorner_tile_code lat' lon' hlat' hlat2' hlon' hlon2'
    rw [heq, hgtNameCorner_tile_code lat lon hlat hlat2 hlon hlon2] at hd
    have := Option.some.inj hd
    exact ⟨(Prod.mk.injEq _ _ _ _ ▸ this).1.symm, (Prod.mk.injEq _ _ _ _ ▸ this).2.symm⟩

/-- C4 witness: concrete instantiation at (−35, −72) and (−34, −71). -/
theorem C4_tile_code_roundtrip_witness :
    (tile_code (-35) (-72)).length = 7 ∧
    hgtNameCorner (tile_code (-35) (-72)) = some (-35, -72) ∧
    (tile_code (-34) (-71) = tile_code (-35) (-72) → (-34 : ℤ) = -35 ∧ (-71 : ℤ) = -72) :=
  C4_tile_code_roundtrip (-35) (-72) (-34) (-71)
    (by decide) (by decide) (by decide) (by decide)
    (by decide) (by decide) (by decide) (by decide)

/-! ### Bounding boxes and the tile grid planner (lines 659-669 and 726-729) -/

/-- A geographic bounding box `(minx, miny, maxx, maxy)` in degrees,
with exact rational coordinates. -/
structure BBox where
  minx : ℚ
  miny : ℚ
  maxx : ℚ
  maxy : ℚ
deriving DecidableEq

/-- The `1e-9` guard the planner subtracts from the upper corners. -/
def eps : ℚ := 1 / 1000000000

lemma eps_pos : 0 < eps := by norm_num [eps]

/-- Candidate south-west latitudes `{math.floor(miny), math.floor(maxy - 1e-9)}`
(line 663); the Python set is modelled as a deduplicated list. -/
def latCands (b : BBox) : List ℤ := [⌊b.miny⌋, ⌊b.maxy - eps⌋].dedup

/-- Candidate south-west longitudes `{math.floor(minx), math.floor(maxx - 1e-9)}`
(line 664). -/
def lonCands (b : BBox) : List ℤ := [⌊b.minx⌋, ⌊b.maxx - eps⌋].dedup

/-- Lexicographic comparison of strings by code point (Python's string order). -/
def strLeB (a b : List Char) : Bool :=
  match a, b with
  | [], _ => true
  | _ :: _, [] => false
  | x :: xs, y :: ys => if x = y then strLeB xs ys else decide (x.val < y.val)

/-- Ordered insertion for insertion sort over strings. -/
def insStr (x : String) : List String → List String
  | [] => [x]
  | y :: ys => if strLeB x.data y.data then x :: y :: ys else y :: insStr x ys

/-- Insertion sort over strings, modelling Python's `sorted`. -/
def sortStrings : List String → List String
  | [] => []
  | x :: xs => insStr x (sortStrings xs)

/-- The corner-based tile plan: `sorted({tile_code(la, lo) ...})` (line 669). -/
def planCodesList (b : BBox) : List String :=
  sortStrings ((((latCands b).map (fun la => (lonCands b).map (fun lo => tile_code la lo))).flatten).dedup)

/-- `range(lo, hi)` over integers. -/
def intRange (lo hi : ℤ) : List ℤ := (List.range (hi - lo).toNat).map (fun i : ℕ => lo + (i : ℤ))

/-- Exhaustive retry latitudes `range(math.floor(miny), math.ceil(maxy) + 1)` (line 728). -/
def fullLats (b : BBox) : List ℤ := intRange ⌊b.miny⌋ (⌈b.maxy⌉ + 1)

/-- Exhaustive retry longitudes `range(math.floor(minx), math.ceil(maxx) + 1)` (line 727). -/
def fullLons (b : BBox) : List ℤ := intRange ⌊b.minx⌋ (⌈b.maxx⌉ + 1)

/-- The exhaustive second-attempt tile enumeration (line 729). -/
def fullCodesList (b : BBox) : List String :=
  sortStrings ((((fullLats b).map (fun la => (fullLons b).map (fun lo => tile_code la lo))).flatten).dedup)

/-- The half-open 1°×1° cell with south-west corner `(n, m)` (the cell owning
points by `floor`) meets the bounding box. -/
def cellIntersects (b : BBox) (n m : ℤ) : Prop :=
  (n : ℚ) ≤ b.maxy ∧ b.miny < (n : ℚ) + 1 ∧ (m : ℚ) ≤ b.maxx ∧ b.minx < (m : ℚ) + 1

lemma mem_insStr (a x : String) (l : List String) : a ∈ insStr x l ↔ a = x ∨ a ∈ l := by
  induction l with
  | nil => simp [insStr]
  | cons y ys ih =>
    by_cases h : strLeB x.data y.data = true
    · simp [insStr, h]
    · simp only [insStr, if_neg h, List.mem_cons, ih]
      tauto

lemma mem_sortStrings (a : String) (l : List String) : a ∈ sortStrings l ↔ a ∈ l := by
  induction l with
  | nil => simp [sortStrings]
  | cons x xs ih => simp [sortStrings, mem_insStr, ih]

lemma mem_intRange (a lo hi : ℤ) : a ∈ intRange lo hi ↔ lo ≤ a ∧ a < hi := by
  simp only [intRange, List.mem_map, List.mem_range]
  constructor
  · rintro ⟨i, _, rfl⟩
    omega
  · rintro ⟨h1, h2⟩
    exact ⟨(a - lo).toNat, by omega, by omega⟩

lemma tile_code_mem_fullCodesList (b : BBox) (n m : ℤ)
    (hn : ⌊b.miny⌋ ≤ n) (hn2 : n ≤ ⌈b.maxy⌉) (hm : ⌊b.minx⌋ ≤ m) (hm2 : m ≤ ⌈b.maxx⌉) :
    tile_code n m ∈ fullCodesList b := by
  rw [fullCodesList, mem_sortStrings, List.mem_dedup, List.mem_flatten]
  refine ⟨(fullLons b).map (fun lo => tile_code n lo), ?_, ?_⟩
  · exact List.mem_map_of_mem _ (by rw [fullLats, mem_intRange]; omega)
  · exact List.mem_map_of_mem _ (by rw [fullLons, mem_intRange]; omega)

/-- C3 (amended): when the bounding box lies inside the single cell
`[n, n+1] × [m, m+1]`, does not degenerate onto the cell's north/east edge
(`miny < n+1`, `minx < m+1`), and rises at least `1e-9` above the cell's
south/west edge (`n + eps ≤ maxy`, `m + eps ≤ maxx`), the corner-based
planner returns exactly the one tile identifier of that cell. -/
theorem C3_single_cell_one_tile (b : BBox) (n m : ℤ)
    (hn1 : (n : ℚ) ≤ b.miny) (hn2 : b.miny < (n : ℚ) + 1)
    (hn3 : b.maxy ≤ (n : ℚ) + 1) (hn4 : (n : ℚ) + eps ≤ b.maxy)
    (hm1 : (m : ℚ) ≤ b.minx) (hm2 : b.minx < (m : ℚ) + 1)
    (hm3 : b.maxx ≤ (m : ℚ) + 1) (hm4 : (m : ℚ) + eps ≤ b.maxx) :
    planCodesList b = [tile_code n m] ∧ (planCodesList b).length = 1 := by
  have hfy1 : ⌊b.miny⌋ = n := by
    rw [Int.floor_eq_iff]; exact ⟨hn1, hn2⟩
  have hfy2 : ⌊b.maxy - eps⌋ = n := by
    rw [Int.floor_eq_iff]
    constructor
    · linarith
    · linarith [eps_pos]
  have hfx1 : ⌊b.minx⌋ = m := by
    rw [Int.floor_eq_iff]; exact ⟨hm1, hm2⟩
  have hfx2 : ⌊b.maxx - eps⌋ = m := by
    rw [Int.floor_eq_iff]
    constructor
    · linarith
    · linarith [eps_pos]
  have hlc : latCands b = [n] := by
    rw [latCands, hfy1, hfy2, List.dedup_cons_of_mem (by simp),
      List.dedup_cons_of_not_mem (by simp), List.dedup_nil]
  have hmc : lonCands b = [m] := by
    rw [lonCands, hfx1, hfx2, List.dedup_cons_of_mem (by simp),
      List.dedup_cons_of_not_mem (by simp), List.dedup_nil]
  have hp : planCodesList b = [tile_code n m] := by
    rw [planCodesList, hlc, hmc]
    simp [sortStrings, insStr, List.dedup_cons_of_not_mem, List.dedup_nil]
  exact ⟨hp, by rw [hp]; rfl⟩

/-- A bounding box near (−34.5, −71.5) used as a concrete witness input. -/
def boxW : BBox := ⟨-143/2, -69/2, -357/5, -172/5⟩

/-- C3 witness: a box strictly inside the cell with south-west corner
(−35, −72) yields exactly the single plan `[tile_code (-35) (-72)]`. -/
theorem C3_single_cell_one_tile_witness :
    planCodesList boxW = [tile_code (-35) (-72)] ∧ (planCodesList boxW).length = 1 :=
  C3_single_cell_one_tile boxW (-35) (-72)
    (by norm_num [boxW]) (by norm_num [boxW]) (by norm_num [boxW]) (by norm_num [boxW, eps])
    (by norm_num [boxW]) (by norm_num [boxW]) (by norm_num [boxW]) (by norm_num [boxW, eps])

/-- A bounding box strictly inside the cell `(0,1) × (0,1)` whose top edge is
within `1e-9` of the cell's bottom edge. -/
def boxCexC3 : BBox := ⟨2/5, 1/10000000000, 3/5, 1/5000000000⟩

/-- C3 counterexample: this box lies strictly inside the single cell
`(0,1) × (0,1)`, yet the planner returns two tile identifiers, because
`floor(maxy - 1e-9) = -1 ≠ 0 = floor(miny)`. -/
theorem C3_counterexample :
    (0 < boxCexC3.miny ∧ boxCexC3.miny ≤ boxCexC3.maxy ∧ boxCexC3.maxy < 1 ∧
     0 < boxCexC3.minx ∧ boxCexC3.minx ≤ boxCexC3.maxx ∧ boxCexC3.maxx < 1) ∧
    planCodesList boxCexC3 = ["N00E000", "S01E000"] ∧
    (planCodesList boxCexC3).length ≠ 1 := by
  have h1 : ⌊boxCexC3.miny⌋ = 0 := by
    rw [Int.floor_eq_iff]; norm_num [boxCexC3]
  have h2 : ⌊boxCexC3.maxy - eps⌋ = -1 := by
    rw [Int.floor_eq_iff]; norm_num [boxCexC3, eps]
  have h3 : ⌊boxCexC3.minx⌋ = 0 := by
    rw [Int.floor_eq_iff]; norm_num [boxCexC3]
  have h4 : ⌊boxCexC3.maxx - eps⌋ = 0 := by
    rw [Int.floor_eq_iff]; norm_num [boxCexC3, eps]
  have hp : planCodesList boxCexC3 = ["N00E000", "S01E000"] := by
    rw [planCodesList, latCands, lonCands, h1, h2, h3, h4]
    decide
  refine ⟨by norm_num [boxCexC3], hp, by rw [hp]; decide⟩

/-- C6 (amended): every integer-degree cell meeting the bounding box (cells
taken half-open, owning points by `floor`) has its tile code in the exhaustive
retry enumeration, unconditionally; and provided the box's top/right edge lies
at least `1e-9` above the floor of its bottom/left edge, the retry enumeration
additionally contains the corner-based plan. -/
theorem C6_exhaustive_retry (b : BBox) (n m : ℤ) :
    (cellIntersects b n m → tile_code n m ∈ fullCodesList b) ∧
    ((⌊b.miny⌋ : ℚ) ≤ b.maxy - eps → (⌊b.minx⌋ : ℚ) ≤ b.maxx - eps →
      planCodesList b ⊆ fullCodesList b) := by
  constructor
  · rintro ⟨h1, h2, h3, h4⟩
    apply tile_code_mem_fullCodesList
    · have hfm : (⌊b.miny⌋ : ℚ) ≤ b.miny := Int.floor_le _
      have hc : (⌊b.miny⌋ : ℚ) < (n : ℚ) + 1 := lt_of_le_of_lt hfm h2
      have hc2 : (⌊b.miny⌋ : ℚ) < ((n + 1 : ℤ) : ℚ) := by push_cast; linarith
      have := Int.cast_lt.mp hc2
      omega
    · have hc : (n : ℚ) ≤ (⌈b.maxy⌉ : ℚ) := le_trans h1 (Int.le_ceil _)
      exact_mod_cast hc
    · have hfm : (⌊b.minx⌋ : ℚ) ≤ b.minx := Int.floor_le _
      have hc : (⌊b.minx⌋ : ℚ) < (m : ℚ) + 1 := lt_of_le_of_lt hfm h4
      have hc2 : (⌊b.minx⌋ : ℚ) < ((m + 1 : ℤ) : ℚ) := by push_cast; linarith
      have := Int.cast_lt.mp hc2
      omega
    · have hc : (m : ℚ) ≤ (⌈b.maxx⌉ : ℚ) := le_trans h3 (Int.le_ceil _)
      exact_mod_cast hc
  · intro hy hx c hc
    have hey : b.maxy - eps ≤ b.maxy := by linarith [eps_pos]
    have hex : b.maxx - eps ≤ b.maxx := by linarith [eps_pos]
    rw [planCodesList, mem_sortStrings, List.mem_dedup, List.mem_flatten] at hc
    obtain ⟨s, hs, hcs⟩ := hc
    rw [List.mem_map] at hs
    obtain ⟨la, hla, rfl⟩ := hs
    rw [List.mem_map] at hcs
    obtain ⟨lo, hlo, rfl⟩ := hcs
    rw [latCands, List.mem_dedup] at hla
    rw [lonCands, List.mem_dedup] at hlo
    have hla' : la = ⌊b.miny⌋ ∨ la = ⌊b.maxy - eps⌋ := by simpa using hla
    have hlo' : lo = ⌊b.minx⌋ ∨ lo = ⌊b.maxx - eps⌋ := by simpa using hlo
    have by2 : ⌊b.miny⌋ ≤ ⌊b.maxy - eps⌋ := Int.le_floor.mpr hy
    have by3 : ⌊b.miny⌋ ≤ ⌈b.maxy⌉ := by
      have hq : (⌊b.miny⌋ : ℚ) ≤ (⌈b.maxy⌉ : ℚ) :=
        le_trans hy (le_trans hey (Int.le_ceil _))
      exact_mod_cast hq
    have by4 : ⌊b.maxy - eps⌋ ≤ ⌈b.maxy⌉ :=
      le_trans (Int.floor_le_floor hey) (Int.floor_le_ceil _)
    have bx2 : ⌊b.minx⌋ ≤ ⌊b.maxx - eps⌋ := Int.le_floor.mpr hx
    have bx3 : ⌊b.minx⌋ ≤ ⌈b.maxx⌉ := by
      have hq : (⌊b.minx⌋ : ℚ) ≤ (⌈b.maxx⌉ : ℚ) :=
        le_trans hx (le_trans hex (Int.le_ceil _))
      exact_mod_cast hq
    have bx4 : ⌊b.maxx - eps⌋ ≤ ⌈b.maxx⌉ :=
      le_trans (Int.floor_le_floor hex) (Int.floor_le_ceil _)
    rcases hla' with rfl | rfl <;> rcases hlo' with rfl | rfl
    · exact tile_code_mem_fullCodesList b _ _ (le_refl _) by3 (le_refl _) bx3
    · exact tile_code_mem_fullCodesList b _ _ (le_refl _) by3 bx2 bx4
    · exact tile_code_mem_fullCodesList b _ _ by2 by4 (le_refl _) bx3
    · exact tile_code_mem_fullCodesList b _ _ by2 by4 bx2 bx4

/-- C6 witness: for the concrete box `boxW`, the cell (−35, −72) meets the box
and its code is in the exhaustive enumeration, and the corner plan is
contained in the exhaustive enumeration. -/
theorem C6_exhaustive_retry_witness :
    tile_code (-35) (-72) ∈ fullCodesList boxW ∧
    planCodesList boxW ⊆ fullCodesList boxW := by
  have hf : ⌊boxW.miny⌋ = -35 := by
    rw [Int.floor_eq_iff]; norm_num [boxW]
  have hg : ⌊boxW.minx⌋ = -72 := by
    rw [Int.floor_eq_iff]; norm_num [boxW]
  have h := C6_exhaustive_retry boxW (-35) (-72)
  refine ⟨h.1 ?_, h.2 (by rw [hf]; norm_num [boxW, eps]) (by rw [hg]; norm_num [boxW, eps])⟩
  refine ⟨?_, ?_, ?_, ?_⟩ <;> norm_num [boxW, cellIntersects]

/-- A bounding box hugging the whole-degree latitude line 1 from above by
`1e-10`: the corner plan contains a tile below the exhaustive range. -/
def boxCexC6 : BBox := ⟨1/2, 1, 3/5, 10000000001/10000000000⟩

/-- C6 counterexample: for this box the corner-based plan contains
`N00E000` (via `floor(maxy - 1e-9) = 0`), but the exhaustive retry
enumeration starts at `floor(miny) = 1`; the retry set is not a superset of
the corner-based set. -/
theorem C6_counterexample :
    planCodesList boxCexC6 = ["N00E000", "N01E000"] ∧
    fullCodesList boxCexC6 = ["N01E000", "N01E001", "N02E000", "N02E001"] ∧
    ¬ planCodesList boxCexC6 ⊆ fullCodesList boxCexC6 := by
  have h1 : ⌊boxCexC6.miny⌋ = 1 := by
    rw [Int.floor_eq_iff]; norm_num [boxCexC6]
  have h2 : ⌊boxCexC6.maxy - eps⌋ = 0 := by
    rw [Int.floor_eq_iff]; norm_num [boxCexC6, eps]
  have h3 : ⌊boxCexC6.minx⌋ = 0 := by
    rw [Int.floor_eq_iff]; norm_num [boxCexC6]
  have h4 : ⌊boxCexC6.maxx - eps⌋ = 0 := by
    rw [Int.floor_eq_iff]; norm_num [boxCexC6, eps]
  have h5 : ⌈boxCexC6.maxy⌉ = 2 := by
    rw [Int.ceil_eq_iff]; norm_num [boxCexC6]
  have h6 : ⌈boxCexC6.maxx⌉ = 1 := by
    rw [Int.ceil_eq_iff]; norm_num [boxCexC6]
  have hp : planCodesList boxCexC6 = ["N00E000", "N01E000"] := by
    rw [planCodesList, latCands, lonCands, h1, h2, h3, h4]
    decide
  have hf : fullCodesList boxCexC6 = ["N01E000", "N01E001", "N02E000", "N02E001"] := by
    rw [fullCodesList, fullLats, fullLons, h1, h3, h5, h6]
    decide
  exact ⟨hp, hf, by rw [hp, hf]; decide⟩

/-! ### The resilient tile fetcher (lines 647-809) -/

/-- An opaque byte string: the source observes only the identity and byte
count of downloaded payloads. -/
structure Bytes where
  tag : ℕ
  size : ℕ
deriving DecidableEq

/-- An HTTP response: status code and raw body. -/
structure HttpResp where
  status : ℕ
  body : Bytes
deriving DecidableEq

/-- One member of a zip archive. -/
structure ZipEntry where
  ename : String
  content : Bytes
deriving DecidableEq

/-- The external world of the fetcher: network, decompressors, the
spatiotemporal catalog, and the success of the raster library calls.
`none` from `net` models a raised request exception; `none` from `gunzip` or
`unzip` models a decompression/extraction exception. -/
structure FetchEnv where
  net : String → Option HttpResp
  gunzip : Bytes → Option Bytes
  unzip : Bytes → Option (List ZipEntry)
  catalog : BBox → List ℕ
  rasterOk : Bool
  mosaicOk : Bool
  reprojOk : Bool

/-- `url.endswith(suffix)`. -/
def strEndsWith (s suffix : String) : Bool := List.isSuffixOf suffix.data s.data

/-- `member.lower()`. -/
def lowerStr (s : String) : String := String.mk (s.data.map Char.toLower)

/-- The ordered mirror URL list for a tile code (lines 677-684 and 736-742). -/
def tileUrls (code : String) : List String :=
  ["https://srtm.kurviger.de/SRTM3/" ++ code ++ ".hgt.gz",
   "https://dds.cr.usgs.gov/srtm/version2_1/SRTM3/South_America/" ++ code ++ ".hgt.zip",
   "https://srtm.kurviger.de/SRTM3/" ++ code ++ ".hgt",
   "https://srtmtiles.s3.amazonaws.com/" ++ code ++ ".hgt.gz",
   "https://s3.amazonaws.com/elevation-tiles-prod/skadi/" ++ String.mk (code.data.take 3)
     ++ "/" ++ code ++ ".hgt.gz"]

/-- The raw (uncompressed) mirror URL, third in the list. -/
def rawUrlOf (code : String) : String := "https://srtm.kurviger.de/SRTM3/" ++ code ++ ".hgt"

/-- The Mapzen Skadi URL used by the forced final retry (line 791). -/
def mapzenUrl (code : String) : String :=
  "https://s3.amazonaws.com/elevation-tiles-prod/skadi/" ++ String.mk (code.data.take 3)
    ++ "/" ++ code ++ ".hgt.gz"

/-- Materialization of a 200 response in the FIRST fetch pass (lines 695-710):
gzip bodies are gunzipped, zip bodies yield their first `.hgt` member, and
any other URL (in particular the raw `.hgt` mirror) writes nothing. -/
def decodeBody1 (env : FetchEnv) (url : String) (body : Bytes) : Option Bytes :=
  if strEndsWith url ".gz" then env.gunzip body
  else if strEndsWith url ".zip" then
    match env.unzip body with
    | none => none
    | some entries =>
      match entries.find? (fun e => strEndsWith (lowerStr e.ename) ".hgt") with
      | none => none
      | some e => some e.content
  else none

/-- Materialization of a 200 response in the SECOND fetch pass
(lines 753-770): identical to the first pass but with the additional
`elif url.endswith('.hgt')` branch writing the raw body. -/
def decodeBody2 (env : FetchEnv) (url : String) (body : Bytes) : Option Bytes :=
  if strEndsWith url ".gz" then env.gunzip body
  else if strEndsWith url ".zip" then
    match env.unzip body with
    | none => none
    | some entries =>
      match entries.find? (fun e => strEndsWith (lowerStr e.ename) ".hgt") with
      | none => none
      | some e => some e.content
  else if strEndsWith url ".hgt" then some body
  else none

/-- Outcome of the per-tile mirror loop: the `.hgt` file produced (if any),
whether the tile was accepted (`downloaded = True` and `break`), whether the
undersized-tile warning was logged, and the URLs requested. -/
structure TileFetch where
  file : Option Bytes
  accepted : Bool
  sizeWarned : Bool
  requests : List String
deriving DecidableEq

/-- Prepend a requested URL to a loop result. -/
def TileFetch.pushReq (url : String) (r : TileFetch) : TileFetch :=
  ⟨r.file, r.accepted, r.sizeWarned, url :: r.requests⟩

/-- The per-tile mirror loop (lines 686-718 / 744-778): try each URL in
order; on exception or non-200 status continue; on a materialized file, warn
if its size is below 2,000,000 bytes, accept it and stop. -/
def fetchLoop (decode : String → Bytes → Option Bytes) (env : FetchEnv) :
    List String → TileFetch
  | [] => ⟨none, false, false, []⟩
  | url :: rest =>
    match env.net url with
    | none => TileFetch.pushReq url (fetchLoop decode env rest)
    | some resp =>
      if resp.status = 200 then
        match decode url resp.body with
        | some b => ⟨some b, true, decide (b.size < 2000000), [url]⟩
        | none => TileFetch.pushReq url (fetchLoop decode env rest)
      else TileFetch.pushReq url (fetchLoop decode env rest)

/-- Files on disk, as an association list from file name to content. -/
def lookupFile (files : List (String × Bytes)) (name : String) : Option Bytes :=
  match files.find? (fun p => p.1 == name) with
  | none => none
  | some p => some p.2

/-- Result of handling one tile code: disk state, the mosaic-input entry
contributed (if any), requests issued, and whether a size warning fired. -/
structure TileStep where
  files : List (String × Bytes)
  entry : Option (String × Bytes)
  requests : List String
  sizeWarned : Bool
deriving DecidableEq

/-- Handling of one tile code (lines 672-723 / 731-783): if `code.hgt`
already exists it is reused with no network traffic; otherwise the mirror
loop runs and an accepted file is written and contributed. -/
def handleTile (decode : String → Bytes → Option Bytes) (env : FetchEnv)
    (files : List (String × Bytes)) (code : String) : TileStep :=
  match lookupFile files (code ++ ".hgt") with
  | some b => ⟨files, some (code ++ ".hgt", b), [], false⟩
  | none =>
    let r := fetchLoop decode env (tileUrls code)
    match r.file with
    | some b =>
      ⟨files ++ [(code ++ ".hgt", b)], some (code ++ ".hgt", b), r.requests, r.sizeWarned⟩
    | none => ⟨files, none, r.requests, r.sizeWarned⟩

/-- Accumulated result of a whole fetch pass over a code list. -/
structure PassResult where
  files : List (String × Bytes)
  hgt : List (String × Bytes)
  requests : List String
deriving DecidableEq

/-- A fetch pass over the planned codes in order, threading the disk state
and accumulating the `hgt_files` list. -/
def runPass (decode : String → Bytes → Option Bytes) (env : FetchEnv) :
    List String → List (String × Bytes) → PassResult
  | [], files => ⟨files, [], []⟩
  | code :: rest, files =>
    let s := handleTile decode env files code
    let r := runPass decode env rest s.files
    ⟨r.files, (match s.entry with | some e => e :: r.hgt | none => r.hgt),
      s.requests ++ r.requests⟩

/-- Outcome of the forced single-tile Mapzen retry (lines 786-809). -/
structure ForcedResult where
  file : Option Bytes
  accepted : Bool
  requests : List String
deriving DecidableEq

/-- The forced final retry against the known-good Mapzen mirror: on a 200
response the gunzipped payload is written, but it is appended to the mosaic
input only when its size exceeds 1,000,000 bytes (line 803). -/
def forcedMapzen (env : FetchEnv) (code : String) : ForcedResult :=
  match env.net (mapzenUrl code) with
  | none => ⟨none, false, [mapzenUrl code]⟩
  | some r =>
    if r.status = 200 then
      match env.gunzip r.body with
      | none => ⟨none, false, [mapzenUrl code]⟩
      | some b => ⟨some b, decide (1000000 < b.size), [mapzenUrl code]⟩
    else ⟨none, false, [mapzenUrl code]⟩

/-! ### Boundary resolution for the DEM and the full pipeline (617-909) -/

/-- A GeoDataFrame as the pipeline observes it: its CRS tag, whether it is
empty, and its WGS84 total bounds. -/
structure Gdf where
  crs : Option ℤ
  isEmpty : Bool
  bounds : BBox
deriving DecidableEq

/-- CRS normalization to EPSG 4326 (`set_crs`/`to_crs`, lines 625-628). -/
def setCrs4326 (g : Gdf) : Gdf := { g with crs := some 4326 }

/-- `_load_boundary_for_dem` (lines 617-645): use the in-memory
`boundary_gdf` when usable, else geocode the region, else fail. -/
def loadBoundaryForDem (boundaryGdf geocoded : Option Gdf) : Option Gdf :=
  match boundaryGdf with
  | some g => some (setCrs4326 g)
  | none =>
    match geocoded with
    | some g => some (setCrs4326 g)
    | none => none

/-- The fixed search-buffer margin `0.05` degrees (line 815). -/
def bufferMargin : ℚ := 1/20

/-- The catalog search box: the boundary bounds expanded by the buffer
(line 816). -/
def bboxBuffered (b : BBox) : BBox :=
  ⟨b.minx - bufferMargin, b.miny - bufferMargin, b.maxx + bufferMargin, b.maxy + bufferMargin⟩

/-- Characters of a file name before its last dot (`Path.stem`). -/
def stemChars (l : List Char) : List Char :=
  if ('.') ∈ l then ((l.reverse.dropWhile (fun c => !(c == '.'))).drop 1).reverse else l

/-- Output name of `_reproject_dem` (line 915): `stem_<epsg>.tif`, a sibling
artifact distinct from its input. -/
def reprojName (nm : String) (epsg : ℕ) : String :=
  String.mk (stemChars nm.data) ++ "_" ++ Nat.repr epsg ++ ".tif"

/-- Outcome of the Copernicus fallback (lines 810-850). -/
structure CopResult where
  ok : Bool
  wrote : List String
deriving DecidableEq

/-- The satellite DEM fallback: search the catalog over the buffered bounds;
with no items, fail with nothing written (lines 818-822); otherwise clip and
write `copernicus_dem.tif` (and its reprojection when that succeeds). -/
def copernicusFallback (env : FetchEnv) (g : Gdf) : CopResult :=
  match env.catalog (bboxBuffered g.bounds) with
  | [] => ⟨false, []⟩
  | _ :: _ =>
    if env.rasterOk then
      ⟨true, "copernicus_dem.tif" ::
        (if env.reprojOk then [reprojName "copernicus_dem.tif" 32719] else [])⟩
    else ⟨false, []⟩

/-- Observable outcome of `download_srtm_tiles`. -/
structure SrtmOutcome where
  ok : Bool
  hgt : List (String × Bytes)
  requests : List String
  catalogQueried : Bool
  wrote : List String
deriving DecidableEq

/-- The mosaic/clip/reproject tail of the pipeline (lines 854-909): with a
non-empty `hgt_files` list, write `srtm_dem.tif` (and its reprojection). -/
def mosaicStep (env : FetchEnv) (hgt : List (String × Bytes))
    (requests : List String) : SrtmOutcome :=
  if env.mosaicOk then
    ⟨true, hgt, requests, false,
      "srtm_dem.tif" :: (if env.reprojOk then [reprojName "srtm_dem.tif" 32719] else [])⟩
  else ⟨false, hgt, requests, false, []⟩

/-- `download_srtm_tiles` (lines 647-909): resolve the boundary (abort on
failure), run the corner-based pass, then the exhaustive pass, then the
forced Mapzen retry, then the Copernicus fallback. -/
def downloadSrtmTiles (env : FetchEnv) (boundaryGdf geocoded : Option Gdf)
    (files0 : List (String × Bytes)) : SrtmOutcome :=
  match loadBoundaryForDem boundaryGdf geocoded with
  | none => ⟨false, [], [], false, []⟩
  | some g =>
    match g.isEmpty with
    | true => ⟨false, [], [], false, []⟩
    | false =>
      let box := g.bounds
      let p1 := runPass (decodeBody1 env) env (planCodesList box) files0
      match p1.hgt with
      | h :: t => mosaicStep env (h :: t) p1.requests
      | [] =>
        let p2 := runPass (decodeBody2 env) env (fullCodesList box) p1.files
        match p2.hgt with
        | h :: t => mosaicStep env (h :: t) (p1.requests ++ p2.requests)
        | [] =>
          let codeF := tile_code ⌊box.miny⌋ ⌊box.minx⌋
          let f := forcedMapzen env codeF
          let reqs := p1.requests ++ p2.requests ++ f.requests
          match f.file with
          | some bf =>
            if f.accepted then mosaicStep env [(codeF ++ ".hgt", bf)] reqs
            else
              let c := copernicusFallback env g
              ⟨c.ok, [], reqs, true, c.wrote⟩
          | none =>
            let c := copernicusFallback env g
            ⟨c.ok, [], reqs, true, c.wrote⟩

lemma pushReq_file (url : String) (r : TileFetch) : (TileFetch.pushReq url r).file = r.file := rfl

lemma pushReq_accepted (url : String) (r : TileFetch) :
    (TileFetch.pushReq url r).accepted = r.accepted := rfl

lemma pushReq_sizeWarned (url : String) (r : TileFetch) :
    (TileFetch.pushReq url r).sizeWarned = r.sizeWarned := rfl

lemma fetchLoop_file_some (decode : String → Bytes → Option Bytes) (env : FetchEnv) :
    ∀ (urls : List String) (b : Bytes), (fetchLoop decode env urls).file = some b →
      (fetchLoop decode env urls).accepted = true ∧
      (fetchLoop decode env urls).sizeWarned = decide (b.size < 2000000) := by
  intro urls
  induction urls with
  | nil => intro b h; exact absurd h (by simp [fetchLoop])
  | cons url rest ih =>
    intro b h
    unfold fetchLoop at h ⊢
    cases hnet : env.net url with
    | none =>
      rw [hnet] at h
      dsimp only at h ⊢
      rw [pushReq_file] at h
      rw [pushReq_accepted, pushReq_sizeWarned]
      exact ih b h
    | some resp =>
      rw [hnet] at h
      dsimp only at h ⊢
      by_cases hst : resp.status = 200
      · rw [if_pos hst] at h ⊢
        cases hdec : decode url resp.body with
        | none =>
          rw [hdec] at h
          dsimp only at h ⊢
          rw [pushReq_file] at h
          rw [pushReq_accepted, pushReq_sizeWarned]
          exact ih b h
        | some b2 =>
          rw [hdec] at h
          dsimp only at h ⊢
          have hb : b2 = b := by simpa using h
          subst hb
          exact ⟨rfl, rfl⟩
      · rw [if_neg hst] at h ⊢
        rw [pushReq_file] at h
        rw [pushReq_accepted, pushReq_sizeWarned]
        exact ih b h

lemma forcedMapzen_accept_iff (env : FetchEnv) (code : String) (b : Bytes)
    (h : (forcedMapzen env code).file = some b) :
    (forcedMapzen env code).accepted = true ↔ 1000000 < b.size := by
  unfold forcedMapzen at h ⊢
  cases hnet : env.net (mapzenUrl code) with
  | none => rw [hnet] at h; simp at h
  | some r =>
    rw [hnet] at h
    dsimp only at h ⊢
    by_cases hst : r.status = 200
    · rw [if_pos hst] at h ⊢
      cases hgz : env.gunzip r.body with
      | none => rw [hgz] at h; simp at h
      | some bb =>
        rw [hgz] at h
        dsimp only at h ⊢
        have hb : bb = b := by simpa using h
        subst hb
        simp [decide_eq_true_eq]
    · rw [if_neg hst] at h; simp at h

/-- Environment in which only the raw `.hgt` mirror of tile S35W072 answers
with HTTP 200; every other request gets a 404. -/
def envC1 : FetchEnv where
  net := fun url =>
    if url = rawUrlOf "S35W072" then some ⟨200, ⟨7, 2884802⟩⟩ else some ⟨404, ⟨0, 0⟩⟩
  gunzip := fun _ => none
  unzip := fun _ => none
  catalog := fun _ => []
  rasterOk := true
  mosaicOk := true
  reprojOk := true

/-- C1: a 200 response from the raw (uncompressed) mirror is NOT materialized
by the first fetch pass — the loop writes nothing, accepts nothing, and falls
through all five mirrors — although the second-pass code (which has the
`url.endswith('.hgt')` branch) materializes and accepts the identical
response. The first pass contradicts the claimed "every 200 response is
materialized and accepted". -/
theorem C1_raw_mirror_discarded_first_pass :
    fetchLoop (decodeBody1 envC1) envC1 (tileUrls "S35W072") =
      ⟨none, false, false, tileUrls "S35W072"⟩ ∧
    (fetchLoop (decodeBody2 envC1) envC1 (tileUrls "S35W072")).file = some ⟨7, 2884802⟩ ∧
    (fetchLoop (decodeBody2 envC1) envC1 (tileUrls "S35W072")).accepted = true := by
  exact ⟨by decide, by decide, by decide⟩

/-- Environment for the size-anomaly claims: the first gzip mirror of
S35W072 and the Mapzen mirror answer 200; every decoded payload has
500,000 bytes (anomalously small). -/
def envC5 : FetchEnv where
  net := fun url =>
    if url = "https://srtm.kurviger.de/SRTM3/S35W072.hgt.gz" then some ⟨200, ⟨1, 777⟩⟩
    else if url = mapzenUrl "S35W072" then some ⟨200, ⟨3, 999⟩⟩
    else some ⟨404, ⟨0, 0⟩⟩
  gunzip := fun bb => some ⟨bb.tag, 500000⟩
  unzip := fun _ => none
  catalog := fun _ => []
  rasterOk := true
  mosaicOk := true
  reprojOk := true

/-- C5 counterexample: in the forced single-tile Mapzen retry an anomalously
small decoded tile (500,000 bytes, well below the expected grid size) IS
rejected: the file is written but `accepted` is false, so it is not included
in the mosaic input — contradicting "accepted in every fetch path including
the final forced single-tile retry". -/
theorem C5_counterexample :
    forcedMapzen envC5 "S35W072" =
      ⟨some ⟨3, 500000⟩, false, [mapzenUrl "S35W072"]⟩ ∧
    (500000 : ℕ) < 2000000 := by
  exact ⟨by decide, by decide⟩

/-- C5 (amended): in the first and second fetch passes an undersized decoded
tile is logged (`sizeWarned`) but still accepted; in the forced Mapzen retry
the written tile is accepted only when its size exceeds 1,000,000 bytes. -/
theorem C5_size_anomaly_handling (env : FetchEnv) (urls : List String)
    (code : String) (b : Bytes) :
    ((fetchLoop (decodeBody1 env) env urls).file = some b →
      (fetchLoop (decodeBody1 env) env urls).accepted = true ∧
      (fetchLoop (decodeBody1 env) env urls).sizeWarned = decide (b.size < 2000000)) ∧
    ((fetchLoop (decodeBody2 env) env urls).file = some b →
      (fetchLoop (decodeBody2 env) env urls).accepted = true ∧
      (fetchLoop (decodeBody2 env) env urls).sizeWarned = decide (b.size < 2000000)) ∧
    ((forcedMapzen env code).file = some b →
      ((forcedMapzen env code).accepted = true ↔ 1000000 < b.size)) :=
  ⟨fetchLoop_file_some (decodeBody1 env) env urls b,
   fetchLoop_file_some (decodeBody2 env) env urls b,
   forcedMapzen_accept_iff env code b⟩

/-- C5 witness: at the concrete environment `envC5` the first pass accepts
the 500,000-byte tile with the size warning, and the forced retry's
acceptance is equivalent to the (false) size bound. -/
theorem C5_size_anomaly_handling_witness :
    ((fetchLoop (decodeBody1 envC5) envC5 (tileUrls "S35W072")).accepted = true ∧
     (fetchLoop (decodeBody1 envC5) envC5 (tileUrls "S35W072")).sizeWarned =
       decide ((Bytes.mk 1 500000).size < 2000000)) ∧
    ((forcedMapzen envC5 "S35W072").accepted = true ↔
      1000000 < (Bytes.mk 3 500000).size) :=
  ⟨(C5_size_anomaly_handling envC5 (tileUrls "S35W072") "S35W072" ⟨1, 500000⟩).1
      (by decide),
   (C5_size_anomaly_handling envC5 (tileUrls "S35W072") "S35W072" ⟨3, 500000⟩).2.2
      (by decide)⟩

/-- C10: a tile whose `.hgt` file already exists on disk is reused: no URL is
requested, the disk state is unchanged, and the existing file is contributed
to the mosaic input exactly as a downloaded one would be — in both the
first-pass and second-pass loops. -/
theorem C10_existing_tile_reused (env : FetchEnv) (files : List (String × Bytes))
    (code : String) (b : Bytes)
    (h : lookupFile files (code ++ ".hgt") = some b) :
    handleTile (decodeBody1 env) env files code =
      ⟨files, some (code ++ ".hgt", b), [], false⟩ ∧
    handleTile (decodeBody2 env) env files code =
      ⟨files, some (code ++ ".hgt", b), [], false⟩ := by
  constructor <;> (unfold handleTile; rw [h])

/-- Disk state with a pre-existing tile file for the C10 witness. -/
def filesC10 : List (String × Bytes) := [("S35W072.hgt", ⟨9, 2884802⟩)]

/-- C10 witness: concrete instantiation with a pre-existing S35W072.hgt. -/
theorem C10_existing_tile_reused_witness :
    handleTile (decodeBody1 envC1) envC1 filesC10 "S35W072" =
      ⟨filesC10, some ("S35W072" ++ ".hgt", ⟨9, 2884802⟩), [], false⟩ ∧
    handleTile (decodeBody2 envC1) envC1 filesC10 "S35W072" =
      ⟨filesC10, some ("S35W072" ++ ".hgt", ⟨9, 2884802⟩), [], false⟩ :=
  C10_existing_tile_reused envC1 filesC10 "S35W072" ⟨9, 2884802⟩ (by decide)

lemma fetchLoop_all_fail (decode : String → Bytes → Option Bytes) (env : FetchEnv)
    (hnet : ∀ url r, env.net url = some r → r.status ≠ 200) :
    ∀ urls : List String, fetchLoop decode env urls = ⟨none, false, false, urls⟩ := by
  intro urls
  induction urls with
  | nil => rfl
  | cons url rest ih =>
    unfold fetchLoop
    cases h : env.net url with
    | none => rw [ih]; rfl
    | some resp =>
      dsimp only
      rw [if_neg (hnet url resp h), ih]
      rfl

lemma handleTile_all_fail (decode : String → Bytes → Option Bytes) (env : FetchEnv)
    (code : String) (files : List (String × Bytes))
    (hnet : ∀ url r, env.net url = some r → r.status ≠ 200)
    (hlook : lookupFile files (code ++ ".hgt") = none) :
    handleTile decode env files code = ⟨files, none, tileUrls code, false⟩ := by
  unfold handleTile
  rw [hlook]
  simp only [fetchLoop_all_fail decode env hnet (tileUrls code)]

lemma runPass_all_fail (decode : String → Bytes → Option Bytes) (env : FetchEnv)
    (hnet : ∀ url r, env.net url = some r → r.status ≠ 200) :
    ∀ codes : List String, runPass decode env codes [] =
      ⟨[], [], ((codes.map tileUrls).flatten)⟩ := by
  intro codes
  induction codes with
  | nil => rfl
  | cons code rest ih =>
    unfold runPass
    simp only [handleTile_all_fail decode env code [] hnet rfl, ih]
    rfl

lemma forcedMapzen_all_fail (env : FetchEnv) (code : String)
    (hnet : ∀ url r, env.net url = some r → r.status ≠ 200) :
    forcedMapzen env code = ⟨none, false, [mapzenUrl code]⟩ := by
  unfold forcedMapzen
  cases h : env.net (mapzenUrl code) with
  | none => rfl
  | some r =>
    dsimp only
    rw [if_neg (hnet _ r h)]

/-- C2: if the boundary cannot be resolved from any source (no in-memory
geometry and no geocoding result), `_load_boundary_for_dem` yields nothing
and the whole elevation pipeline reports failure having issued no tile
request, queried no satellite catalog, and written no file. -/
theorem C2_no_boundary_aborts_elevation :
    loadBoundaryForDem none none = none ∧
    ∀ (env : FetchEnv) (bg geo : Option Gdf) (files0 : List (String × Bytes)),
      loadBoundaryForDem bg geo = none →
      downloadSrtmTiles env bg geo files0 = ⟨false, [], [], false, []⟩ := by
  refine ⟨rfl, ?_⟩
  intro env bg geo files0 h
  unfold downloadSrtmTiles
  rw [h]

/-- The all-404 environment with an empty satellite catalog. -/
def envFail : FetchEnv where
  net := fun _ => some ⟨404, ⟨0, 0⟩⟩
  gunzip := fun _ => none
  unzip := fun _ => none
  catalog := fun _ => []
  rasterOk := true
  mosaicOk := true
  reprojOk := true

/-- C2 witness: concrete run with no boundary source available. -/
theorem C2_no_boundary_aborts_elevation_witness :
    downloadSrtmTiles envFail none none [] = ⟨false, [], [], false, []⟩ :=
  C2_no_boundary_aborts_elevation.2 envFail none none [] rfl

/-- C7: when every mirror fails and the Copernicus catalog search over the
boundary's bounds buffered by 0.05° returns no items, the fallback reports
failure with nothing written, and the whole pipeline reports failure with no
output file written (after having queried the catalog). -/
theorem C7_empty_catalog_fallback_fails (env : FetchEnv) (bg geo : Option Gdf) (g : Gdf)
    (hload : loadBoundaryForDem bg geo = some g) (hempty : g.isEmpty = false)
    (hnet : ∀ url r, env.net url = some r → r.status ≠ 200)
    (hcat : env.catalog (bboxBuffered g.bounds) = []) :
    copernicusFallback env g = ⟨false, []⟩ ∧
    (downloadSrtmTiles env bg geo []).ok = false ∧
    (downloadSrtmTiles env bg geo []).wrote = [] ∧
    (downloadSrtmTiles env bg geo []).catalogQueried = true := by
  have hcop : copernicusFallback env g = ⟨false, []⟩ := by
    unfold copernicusFallback
    rw [hcat]
  have hpipe : downloadSrtmTiles env bg geo [] =
      ⟨false, [],
        ((planCodesList g.bounds).map tileUrls).flatten ++
          (((fullCodesList g.bounds).map tileUrls).flatten ++
            [mapzenUrl (tile_code ⌊g.bounds.miny⌋ ⌊g.bounds.minx⌋)]),
        true, []⟩ := by
    unfold downloadSrtmTiles
    rw [hload]
    dsimp only
    rw [hempty]
    dsimp only
    simp only [runPass_all_fail _ env hnet, forcedMapzen_all_fail env _ hnet, hcop]
    rw [List.append_assoc]
  rw [hpipe]
  exact ⟨hcop, rfl, rfl, rfl⟩

/-- A concrete non-empty boundary over `boxW`. -/
def gdfW : Gdf := ⟨some 4326, false, boxW⟩

/-- C7 witness: concrete all-404 environment with empty catalog. -/
theorem C7_empty_catalog_fallback_fails_witness :
    copernicusFallback envFail gdfW = ⟨false, []⟩ ∧
    (downloadSrtmTiles envFail (some gdfW) none []).ok = false ∧
    (downloadSrtmTiles envFail (some gdfW) none []).wrote = [] ∧
    (downloadSrtmTiles envFail (some gdfW) none []).catalogQueried = true :=
  C7_empty_catalog_fallback_fails envFail (some gdfW) none gdfW rfl rfl
    (fun url r h => by cases h; decide) rfl

/-! ### The WFS boundary query and main's boundary cascade (205-241, 1288-1301) -/

/-- A WFS response: HTTP status and raw response text. -/
structure WfsResp where
  status : ℕ
  text : String
deriving DecidableEq

/-- `download_boundaries` (lines 205-241): `none` models a raised request
exception; an HTTP 200 saves the raw response text verbatim as
`comuna_boundaries.geojson` and returns success; any other status fails.
The response body is never parsed. -/
def download_boundaries (resp : Option WfsResp) : Bool × Option (String × String) :=
  match resp with
  | none => (false, none)
  | some r =>
    if r.status = 200 then (true, some ("comuna_boundaries.geojson", r.text))
    else (false, none)

/-- Trace of the boundary cascade in `main` (lines 1288-1301): which
fallback sources were attempted. -/
structure CascadeTrace where
  okWfs : Bool
  dpaTried : Bool
  osmFallbackTried : Bool
deriving DecidableEq

/-- The `ide` branch of `main`: try WFS unless skipped; on WFS failure try
the DPA bulk archive; on DPA failure save the OSM fallback boundary. -/
def ideBoundaryCascade (skipWfs : Bool) (resp : Option WfsResp) (dpaOk : Bool) :
    CascadeTrace :=
  let okWfs := if skipWfs then false else (download_boundaries resp).1
  if skipWfs || !okWfs then
    if !dpaOk then ⟨okWfs, true, true⟩ else ⟨okWfs, true, false⟩
  else ⟨okWfs, false, false⟩

/-- The GeoJSON text of an empty feature collection. -/
def emptyFeatureCollection : String :=
  "\x7b\"type\": \"FeatureCollection\", \"features\": []\x7d"

/-- C9 counterexample: an HTTP 200 response whose body is an EMPTY feature
collection is treated as success — the text is saved verbatim and the DPA
source is not tried — contradicting "success requires HTTP 200 and a
non-empty feature collection" with escalation on emptiness. -/
theorem C9_counterexample :
    download_boundaries (some ⟨200, emptyFeatureCollection⟩) =
      (true, some ("comuna_boundaries.geojson", emptyFeatureCollection)) ∧
    (ideBoundaryCascade false (some ⟨200, emptyFeatureCollection⟩) false).dpaTried = false :=
  ⟨rfl, rfl⟩

/-- C9 (amended): the WFS boundary query succeeds exactly when the HTTP
status is 200 — the feature collection is saved verbatim, never inspected —
and escalation to the DPA archive happens exactly when the WFS step fails. -/
theorem C9_wfs_success_iff_200 (r : WfsResp) (dpaOk : Bool) :
    ((download_boundaries (some r)).1 = true ↔ r.status = 200) ∧
    (download_boundaries (some r)).2 =
      (if r.status = 200 then some ("comuna_boundaries.geojson", r.text) else none) ∧
    (ideBoundaryCascade false (some r) dpaOk).dpaTried = decide (r.status ≠ 200) := by
  unfold download_boundaries ideBoundaryCascade
  by_cases h : r.status = 200 <;> simp [download_boundaries, h] <;>
    cases dpaOk <;> rfl
